import Mathlib

/-!
Shallow embedding of `apbaccess.py` (class `APB`): the APB write-scheduling
engine of the ai8x-training repository.

Modelling conventions:
* Addresses and data values are `Nat` (the Python code asserts `addr >= 0`
  and `val >= 0` at every backend entry point, so the non-negative domain is
  the one the code admits; on `Nat` those assertions hold by typing).
* The output sink (`self.memfile`) is modelled at two levels.  The engine
  records every backend invocation (`self.write(...)` / `self.verify(...)`)
  in an ordered `calls` trace; the two interchangeable backends
  (`write_block`/`verify_block` and `write_top`/`verify_top`) are modelled
  as text-rendering functions on a `Writer` (list of emitted lines plus the
  `.mem`-file line counter `foffs`).
* `print` diagnostics from overwrite detection are recorded in `reports`
  (the offending address, one entry per report).
* `sys.exit(1)` is modelled by setting `exited := some 1`; a terminated
  process executes nothing further, so every engine operation returns the
  state unchanged once `exited` is set.  An assertion failure (uncaught
  `AssertionError`) likewise terminates the process with status 1.
* The module-level constants imported from `tornadocnn` are external
  configuration (the memory-map table); they are passed as a `Tcnn`
  record of natural-number constants.
-/

namespace ApbAccess

/-- The memory-map configuration constants read from the `tornadocnn` module. -/
structure Tcnn where
  C_GROUP_OFFS : Nat
  P_NUMGROUPS : Nat
  C_CNN_BASE : Nat
  C_CNN : Nat
  MAX_LAYERS : Nat
  C_BRAM_BASE : Nat
  C_TRAM_BASE : Nat
  TRAM_SIZE : Nat
  MAX_CHANNELS : Nat
  MASK_WIDTH : Nat
  C_MRAM_BASE : Nat
  P_NUMPRO : Nat
deriving DecidableEq

/-- One backend invocation: `self.write(addr, val, comment, no_verify)` or
`self.verify(addr, val, comment, rv)`. -/
inductive Call where
  | write (addr val : Nat) (comment : String) (noVerify : Bool)
  | verify (addr val : Nat) (comment : String) (rv : Bool)
deriving DecidableEq

/-- Engine state: the fields set by `APB.__init__` (`apb_base`, the policy
flags, `data`, `num`, `data_offs`, `mem`) plus the observable event history
(`calls`, `reports`, `exited`). -/
structure APB where
  apb_base : Nat
  block_mode : Bool
  verify_writes : Bool
  no_error_stop : Bool
  data : Nat
  num : Nat
  data_offs : Nat
  mem : List Bool
  calls : List Call
  reports : List Nat
  exited : Option Nat
deriving DecidableEq

/-- Python `APB.__init__`: `self.mem = [False] * tornadocnn.C_GROUP_OFFS * tornadocnn.P_NUMGROUPS`
(note: in Python this is `([False] * C_GROUP_OFFS) * P_NUMGROUPS`, a list of
length `C_GROUP_OFFS * P_NUMGROUPS`). -/
def APB.init (t : Tcnn) (apb_base : Nat)
    (block_mode verify_writes no_error_stop : Bool) : APB :=
  { apb_base := apb_base
    block_mode := block_mode
    verify_writes := verify_writes
    no_error_stop := no_error_stop
    data := 0
    num := 0
    data_offs := 0
    mem := List.replicate (t.C_GROUP_OFFS * t.P_NUMGROUPS) false
    calls := []
    reports := []
    exited := none }

/-- Record a `self.write(addr, val, comment, no_verify)` backend invocation. -/
def APB.push_write (s : APB) (addr val : Nat) (comment : String)
    (noVerify : Bool) : APB :=
  { s with calls := s.calls ++ [Call.write addr val comment noVerify] }

/-- Record a `self.verify(addr, val, comment, rv)` backend invocation. -/
def APB.push_verify (s : APB) (addr val : Nat) (comment : String)
    (rv : Bool) : APB :=
  { s with calls := s.calls ++ [Call.verify addr val comment rv] }

/-- Python `APB.write_ctl`: address `C_GROUP_OFFS*group + C_CNN_BASE + reg*4`;
a `None` comment defaults to ' // global ctl ' followed by the register number.  (The `debug`
branch only prints to the console and is not modelled.) -/
def APB.write_ctl (t : Tcnn) (s : APB) (group reg val : Nat)
    (comment : Option String) : APB :=
  if s.exited.isSome then s else
  let c := match comment with
    | none => " // global ctl " ++ toString reg
    | some c0 => c0
  s.push_write (t.C_GROUP_OFFS * group + t.C_CNN_BASE + reg * 4) val c false

/-- Python `APB.write_lreg`: address
`C_GROUP_OFFS*group + C_CNN_BASE + C_CNN*4 + reg*4*MAX_LAYERS + layer*4`;
a `None` comment defaults to ' // reg ' followed by the register number. -/
def APB.write_lreg (t : Tcnn) (s : APB) (group layer reg val : Nat)
    (comment : Option String) : APB :=
  if s.exited.isSome then s else
  let c := match comment with
    | none => " // reg " ++ toString reg
    | some c0 => c0
  s.push_write (t.C_GROUP_OFFS * group + t.C_CNN_BASE + t.C_CNN * 4
    + reg * 4 * t.MAX_LAYERS + layer * 4) val c false

/-- Python `APB.write_bias`: address `C_GROUP_OFFS*group + C_BRAM_BASE + offs*4`,
value masked to 8 bits. -/
def APB.write_bias (t : Tcnn) (s : APB) (group offs bias : Nat) : APB :=
  if s.exited.isSome then s else
  s.push_write (t.C_GROUP_OFFS * group + t.C_BRAM_BASE + offs * 4)
    (bias &&& 0xff) " // Bias" false

/-- Python `APB.write_tram`: address
`C_GROUP_OFFS*group + C_TRAM_BASE + proc*TRAM_SIZE*4 + offs*4`. -/
def APB.write_tram (t : Tcnn) (s : APB) (group proc offs d : Nat)
    (comment : String) : APB :=
  if s.exited.isSome then s else
  s.push_write (t.C_GROUP_OFFS * group + t.C_TRAM_BASE
      + proc * t.TRAM_SIZE * 4 + offs * 4) d
    (" // " ++ comment ++ "TRAM G" ++ toString group ++ " P" ++ toString proc
      ++ " #" ++ toString offs) false

/-- The kernel base address computed by `APB.write_kern`:
`C_GROUP_OFFS*(ch // P_NUMPRO) + C_MRAM_BASE + (ch % P_NUMPRO)*MASK_WIDTH*16 + idx*16`. -/
def kern_addr (t : Tcnn) (ch idx : Nat) : Nat :=
  t.C_GROUP_OFFS * (ch / t.P_NUMPRO) + t.C_MRAM_BASE
    + (ch % t.P_NUMPRO) * t.MASK_WIDTH * 16 + idx * 16

/-- Python `APB.write_kern`: asserts `ch < MAX_CHANNELS` and `idx < MASK_WIDTH`
(assertion failure terminates the process), computes the kernel base address,
issues four writes with `no_verify=True`, then, if `verify_writes`, four
matching `verify` calls (with default `comment=''`, `rv=False`). -/
def APB.write_kern (t : Tcnn) (s : APB) (ll ch idx : Nat) (k : List Nat) : APB :=
  if s.exited.isSome then s else
  if ch < t.MAX_CHANNELS ∧ idx < t.MASK_WIDTH then
    let addr := kern_addr t ch idx
    let s1 := s.push_write addr ((k.getD 0 0) &&& 0xff)
      (" // Layer " ++ toString ll ++ ": processor " ++ toString ch
        ++ " kernel #" ++ toString idx) true
    let s2 := s1.push_write (addr + 4)
      ((((k.getD 1 0) &&& 0xff) <<< 24) ||| (((k.getD 2 0) &&& 0xff) <<< 16)
        ||| (((k.getD 3 0) &&& 0xff) <<< 8) ||| ((k.getD 4 0) &&& 0xff)) "" true
    let s3 := s2.push_write (addr + 8)
      ((((k.getD 5 0) &&& 0xff) <<< 24) ||| (((k.getD 6 0) &&& 0xff) <<< 16)
        ||| (((k.getD 7 0) &&& 0xff) <<< 8) ||| ((k.getD 8 0) &&& 0xff)) "" true
    let s4 := s3.push_write (addr + 12) 0 "" true
    if s4.verify_writes then
      ((((s4.push_verify addr ((k.getD 0 0) &&& 0xff) "" false).push_verify
        (addr + 4)
        ((((k.getD 1 0) &&& 0xff) <<< 24) ||| (((k.getD 2 0) &&& 0xff) <<< 16)
          ||| (((k.getD 3 0) &&& 0xff) <<< 8) ||| ((k.getD 4 0) &&& 0xff)) "" false).push_verify
        (addr + 8)
        ((((k.getD 5 0) &&& 0xff) <<< 24) ||| (((k.getD 6 0) &&& 0xff) <<< 16)
          ||| (((k.getD 7 0) &&& 0xff) <<< 8) ||| ((k.getD 8 0) &&& 0xff)) "" false).push_verify
        (addr + 12) 0 "" false)
    else s4
  else { s with exited := some 1 }

/-- Python `APB.write_byte_flush`: if the accumulator holds bytes, compute
`woffs = data_offs - num`, check the overwrite bitmap at `woffs >> 2`
(reporting the address and calling `sys.exit(1)` unless `no_error_stop`),
emit the word, mark the bitmap slot, reset `num`/`data`; finally set
`data_offs = offs`. -/
def APB.write_byte_flush (s : APB) (offs : Nat) (comment : String) : APB :=
  if s.exited.isSome then s else
  if 0 < s.num then
    let woffs := s.data_offs - s.num
    if s.mem.getD (woffs >>> 2) false then
      let s1 := { s with reports := s.reports ++ [woffs] }
      if s1.no_error_stop then
        let s2 := s1.push_write woffs s1.data comment false
        { s2 with mem := s2.mem.set (woffs >>> 2) true,
                  num := 0, data := 0, data_offs := offs }
      else
        { s1 with exited := some 1 }
    else
      let s2 := s.push_write woffs s.data comment false
      { s2 with mem := s2.mem.set (woffs >>> 2) true,
                num := 0, data := 0, data_offs := offs }
  else { s with data_offs := offs }

/-- Python `APB.write_byte`: flush on a non-contiguous offset (with the default
empty comment), OR the byte into the accumulator at position `num`
(little endian), advance `num` and `data_offs`, and flush when `num`
reaches 4. -/
def APB.write_byte (s : APB) (offs val : Nat) (comment : String) : APB :=
  if s.exited.isSome then s else
  let s1 := if offs ≠ s.data_offs then s.write_byte_flush offs "" else s
  if s1.exited.isSome then s1 else
  let s2 := { s1 with data := s1.data ||| ((val &&& 0xff) <<< (8 * s1.num)),
                      num := s1.num + 1, data_offs := s1.data_offs + 1 }
  if s2.num = 4 then s2.write_byte_flush (offs + 1) comment else s2

/-- Python `APB.get_mem`: return the engine's memory (overwrite-bitmap) field. -/
def APB.get_mem (s : APB) : List Bool :=
  s.mem

/-- The engine's public operations (used to quantify over arbitrary call
sequences). -/
inductive Op where
  | wctl (group reg val : Nat) (comment : Option String)
  | wlreg (group layer reg val : Nat) (comment : Option String)
  | wbias (group offs bias : Nat)
  | wtram (group proc offs d : Nat) (comment : String)
  | wkern (ll ch idx : Nat) (k : List Nat)
  | wbyte (offs val : Nat) (comment : String)
  | wflush (offs : Nat) (comment : String)
deriving DecidableEq

/-- Dispatch one public operation. -/
def APB.step (t : Tcnn) (s : APB) : Op → APB
  | Op.wctl group reg val comment => s.write_ctl t group reg val comment
  | Op.wlreg group layer reg val comment => s.write_lreg t group layer reg val comment
  | Op.wbias group offs bias => s.write_bias t group offs bias
  | Op.wtram group proc offs d comment => s.write_tram t group proc offs d comment
  | Op.wkern ll ch idx k => s.write_kern t ll ch idx k
  | Op.wbyte offs val comment => s.write_byte offs val comment
  | Op.wflush offs comment => s.write_byte_flush offs comment

/-- Run a sequence of public operations. -/
def APB.run (t : Tcnn) (s : APB) : List Op → APB
  | [] => s
  | op :: ops => (s.step t op).run t ops

/-! ### The two output backends, as text renderers

The Python backends write lines to `self.memfile`; `write_block` also
advances the `.mem`-file location counter `self.foffs` by 2 per call.
`Writer` is that sink-side state.  Hex formatting follows Python's
08x / 04x: lowercase hex, zero-padded to the field width. -/

/-- The output-sink state: emitted lines (each entry one line, without the
trailing newline) and the `.mem` location counter `foffs`. -/
structure Writer where
  out : List String
  foffs : Nat
deriving DecidableEq

/-- Python 08x formatting for 32-bit quantities: lowercase hex, zero-padded to
(at least) 8 digits. -/
def hex8 (n : Nat) : String :=
  let ds := Nat.toDigits 16 n
  String.mk (List.replicate (8 - ds.length) '0' ++ ds)

/-- Python 04x formatting: lowercase hex, zero-padded to (at least) 4 digits. -/
def hex4 (n : Nat) : String :=
  let ds := Nat.toDigits 16 n
  String.mk (List.replicate (4 - ds.length) '0' ++ ds)

/-- The volatile-write statement emitted by `write_top`. -/
def topWriteLine (addr val : Nat) (comment : String) : String :=
  "  *((volatile uint32_t *) 0x" ++ hex8 addr ++ ") = 0x" ++ hex8 val ++ ";"
    ++ comment

/-- The read-back guard statement emitted by `write_top` and `verify_top`. -/
def topGuardLine (addr val : Nat) (comment : String) : String :=
  "  if (*((volatile uint32_t *) 0x" ++ hex8 addr ++ ") != 0x" ++ hex8 val
    ++ ") return 0;" ++ comment

/-- Python `APB.write_block`: emits an address record line and a data record
line (location counter in 4 hex digits, payload in 8, each line prefixed
with an at-sign), then advances `foffs` by 2.  The `comment`
and `no_verify` arguments are unused. -/
def write_block (apb_base : Nat) (w : Writer) (addr val : Nat)
    (comment : String) (noVerify : Bool) : Writer :=
  { out := w.out ++ ["@" ++ hex4 w.foffs ++ " " ++ hex8 (addr + apb_base),
                     "@" ++ hex4 (w.foffs + 1) ++ " " ++ hex8 val],
    foffs := w.foffs + 2 }

/-- Python `APB.write_top`: emits the volatile write, then, if `verify_writes`
and not `no_verify`, the guard line (which carries no comment). -/
def write_top (apb_base : Nat) (verify_writes : Bool) (w : Writer)
    (addr val : Nat) (comment : String) (noVerify : Bool) : Writer :=
  let a := addr + apb_base
  let w1 := { w with out := w.out ++ [topWriteLine a val comment] }
  if verify_writes && !noVerify then
    { w1 with out := w1.out ++ [topGuardLine a val ""] }
  else w1

/-- Python `APB.verify_block`: only the two non-negativity assertions (which hold
on `Nat` by typing); writes nothing and changes nothing. -/
def verify_block (w : Writer) (addr val : Nat) (comment : String)
    (rv : Bool) : Writer :=
  w

/-- Python `APB.verify_top`: branches on `rv` but both branches emit the same
guard line (the `rv` branch is marked `FIXME` in the source). -/
def verify_top (apb_base : Nat) (w : Writer) (addr val : Nat)
    (comment : String) (rv : Bool) : Writer :=
  let a := addr + apb_base
  if rv then { w with out := w.out ++ [topGuardLine a val comment] }
  else { w with out := w.out ++ [topGuardLine a val comment] }

/-! ### Sample configuration and helper lemmas -/

/-- A small concrete memory-map configuration, used to evaluate the engine
on concrete inputs. -/
def t0 : Tcnn :=
  { C_GROUP_OFFS := 8
    P_NUMGROUPS := 2
    C_CNN_BASE := 16
    C_CNN := 4
    MAX_LAYERS := 3
    C_BRAM_BASE := 64
    C_TRAM_BASE := 128
    TRAM_SIZE := 2
    MAX_CHANNELS := 10
    MASK_WIDTH := 6
    C_MRAM_BASE := 256
    P_NUMPRO := 4 }

/-- A concrete engine state whose accumulator holds one byte destined for a
word whose bitmap slot is already set (a pending duplicate). -/
def s_dup : APB :=
  { apb_base := 0
    block_mode := false
    verify_writes := false
    no_error_stop := false
    data := 5
    num := 1
    data_offs := 4
    mem := [true]
    calls := []
    reports := []
    exited := none }

/-- A concrete engine state with one pending byte (value 7, collected at
offset 4) in the accumulator. -/
def s_pend : APB :=
  (APB.init t0 0 false false false).write_byte 4 7 ""

/-- Masking a byte value to 8 bits is the identity. -/
theorem and_255_eq (b : Nat) (h : b < 256) : b &&& 255 = b := by
  have h2 := Nat.and_pow_two_sub_one_eq_mod b 8
  norm_num at h2
  rw [h2, Nat.mod_eq_of_lt h]

/-- A terminated process executes no further operation. -/
theorem step_exited (t : Tcnn) (s : APB) (op : Op) (h : s.exited.isSome) :
    s.step t op = s := by
  cases op <;>
    simp [APB.step, APB.write_ctl, APB.write_lreg, APB.write_bias,
      APB.write_tram, APB.write_kern, APB.write_byte, APB.write_byte_flush, h]

/-- A terminated process executes no further operation sequence. -/
theorem run_exited (t : Tcnn) (s : APB) (ops : List Op) (h : s.exited.isSome) :
    s.run t ops = s := by
  induction ops with
  | nil => rfl
  | cons op ops ih => rw [APB.run, step_exited t s op h, ih]

/-- A bitmap read that returns `true` is in bounds. -/
theorem getD_true_lt (l : List Bool) (i : Nat) (h : l.getD i false = true) :
    i < l.length := by
  by_contra hge
  rw [List.getD_eq_getElem?_getD, List.getElem?_eq_none (by omega)] at h
  simp at h

/-- Flushing a non-empty accumulator whose word slot is fresh emits the
word, marks the slot, and resets the accumulator. -/
theorem flush_fresh (s : APB) (offs : Nat) (cm : String)
    (hex : s.exited = none) (hnum : 0 < s.num)
    (hmem : s.mem.getD ((s.data_offs - s.num) >>> 2) false = false) :
    s.write_byte_flush offs cm
      = { s with
          calls := s.calls
            ++ [Call.write (s.data_offs - s.num) s.data cm false],
          mem := s.mem.set ((s.data_offs - s.num) >>> 2) true,
          num := 0, data := 0, data_offs := offs } := by
  rw [List.getD_eq_getElem?_getD] at hmem
  rw [APB.write_byte_flush]
  simp [hex, hnum, hmem, APB.push_write]

/-- Flushing a non-empty accumulator whose word slot is already set reports
the duplicate and, with `no_error_stop` false, terminates with status 1
before emitting anything. -/
theorem flush_dup_stop (s : APB) (offs : Nat) (cm : String)
    (hex : s.exited = none) (hnum : 0 < s.num) (hnes : s.no_error_stop = false)
    (hdup : s.mem.getD ((s.data_offs - s.num) >>> 2) false = true) :
    s.write_byte_flush offs cm
      = { s with reports := s.reports ++ [s.data_offs - s.num],
                 exited := some 1 } := by
  rw [List.getD_eq_getElem?_getD] at hdup
  rw [APB.write_byte_flush]
  simp [hex, hnum, hdup, hnes]

/-- Flushing a non-empty accumulator whose word slot is already set reports
the duplicate and, with `no_error_stop` true, continues: the word is
emitted and the slot re-marked. -/
theorem flush_dup_continue (s : APB) (offs : Nat) (cm : String)
    (hex : s.exited = none) (hnum : 0 < s.num) (hnes : s.no_error_stop = true)
    (hdup : s.mem.getD ((s.data_offs - s.num) >>> 2) false = true) :
    s.write_byte_flush offs cm
      = { s with
          reports := s.reports ++ [s.data_offs - s.num],
          calls := s.calls
            ++ [Call.write (s.data_offs - s.num) s.data cm false],
          mem := s.mem.set ((s.data_offs - s.num) >>> 2) true,
          num := 0, data := 0, data_offs := offs } := by
  rw [List.getD_eq_getElem?_getD] at hdup
  rw [APB.write_byte_flush]
  simp [hex, hnum, hdup, hnes, APB.push_write]

/-- Flushing an empty accumulator only re-targets the expected offset. -/
theorem flush_empty (s : APB) (offs : Nat) (cm : String)
    (hex : s.exited = none) (hnum : s.num = 0) :
    s.write_byte_flush offs cm = { s with data_offs := offs } := by
  rw [APB.write_byte_flush]
  simp [hex, hnum]

/-- Python `write_byte` at the expected offset with room left in the accumulator:
the byte is ORed in at position `num` and no word is emitted. -/
theorem write_byte_matching (ab : Nat) (bm vw nes : Bool) (dat n doffs : Nat)
    (mem : List Bool) (cls : List Call) (rps : List Nat) (v : Nat)
    (c : String) (h4 : n + 1 ≠ 4) :
    (APB.mk ab bm vw nes dat n doffs mem cls rps none).write_byte doffs v c
      = APB.mk ab bm vw nes (dat ||| ((v &&& 255) <<< (8 * n))) (n + 1)
          (doffs + 1) mem cls rps none := by
  rw [APB.write_byte]
  simp [h4]

/-- Python `write_byte` at the expected offset completing the fourth byte of a
fresh word: the accumulated word is flushed in the same call. -/
theorem write_byte_fourth (ab : Nat) (bm vw nes : Bool) (dat doffs : Nat)
    (mem : List Bool) (cls : List Call) (rps : List Nat) (v : Nat)
    (c : String)
    (hmem : mem.getD ((doffs + 1 - 4) >>> 2) false = false) :
    (APB.mk ab bm vw nes dat 3 doffs mem cls rps none).write_byte doffs v c
      = APB.mk ab bm vw nes 0 0 (doffs + 1)
          (mem.set ((doffs + 1 - 4) >>> 2) true)
          (cls ++ [Call.write (doffs + 1 - 4)
                    (dat ||| ((v &&& 255) <<< 24)) c false])
          rps none := by
  rw [APB.write_byte]
  simp only [Option.isSome_none, Bool.false_eq_true, if_false, ne_eq,
    not_true_eq_false, reduceIte]
  rw [flush_fresh _ _ _ rfl (by norm_num) (by exact hmem)]

/-- Python `write_byte` at a discontinuous offset while bytes are pending at a
fresh word slot: the partial word is flushed (zero-padded high bytes),
then the new byte starts a fresh accumulation. -/
theorem write_byte_discont_fresh (ab : Nat) (bm vw nes : Bool)
    (dat n doffs : Nat) (mem : List Bool) (cls : List Call) (rps : List Nat)
    (offs v : Nat) (c : String)
    (ho : offs ≠ doffs) (hn : 0 < n)
    (hmem : mem.getD ((doffs - n) >>> 2) false = false) :
    (APB.mk ab bm vw nes dat n doffs mem cls rps none).write_byte offs v c
      = APB.mk ab bm vw nes (v &&& 255) 1 (offs + 1)
          (mem.set ((doffs - n) >>> 2) true)
          (cls ++ [Call.write (doffs - n) dat "" false]) rps none := by
  rw [APB.write_byte]
  simp only [Option.isSome_none, Bool.false_eq_true, if_false, ne_eq, ho,
    not_false_eq_true, reduceIte]
  rw [flush_fresh _ _ _ rfl hn (by exact hmem)]
  norm_num

/-- Python `write_ctl` does not touch the byte accumulator. -/
theorem write_ctl_num (t : Tcnn) (s : APB) (g r v : Nat)
    (c : Option String) :
    (s.write_ctl t g r v c).num = s.num := by
  rw [APB.write_ctl.eq_def]
  split_ifs <;> simp [APB.push_write]

/-- Python `write_lreg` does not touch the byte accumulator. -/
theorem write_lreg_num (t : Tcnn) (s : APB) (g l r v : Nat)
    (c : Option String) :
    (s.write_lreg t g l r v c).num = s.num := by
  rw [APB.write_lreg.eq_def]
  split_ifs <;> simp [APB.push_write]

/-- Python `write_bias` does not touch the byte accumulator. -/
theorem write_bias_num (t : Tcnn) (s : APB) (g o b : Nat) :
    (s.write_bias t g o b).num = s.num := by
  rw [APB.write_bias]
  split_ifs <;> simp [APB.push_write]

/-- Python `write_tram` does not touch the byte accumulator. -/
theorem write_tram_num (t : Tcnn) (s : APB) (g p o d : Nat) (c : String) :
    (s.write_tram t g p o d c).num = s.num := by
  rw [APB.write_tram]
  split_ifs <;> simp [APB.push_write]

/-- Python `write_kern` does not touch the byte accumulator. -/
theorem write_kern_num (t : Tcnn) (s : APB) (ll ch idx : Nat)
    (k : List Nat) :
    (s.write_kern t ll ch idx k).num = s.num := by
  rw [APB.write_kern]
  split_ifs <;> simp [APB.push_write, APB.push_verify] <;>
    split_ifs <;> simp

/-- A flush leaves the count at zero, leaves it unchanged, or exits. -/
theorem flush_num_cases (s : APB) (offs : Nat) (cm : String) :
    (s.write_byte_flush offs cm).num = 0
    ∨ (s.write_byte_flush offs cm).num = s.num
    ∨ (s.write_byte_flush offs cm).exited = some 1 := by
  simp only [APB.write_byte_flush, APB.push_write]
  split_ifs <;> simp

/-- A flush of a live state with pending bytes that does not exit resets
the count to zero. -/
theorem flush_num_of_no_exit (s : APB) (offs : Nat) (cm : String)
    (hex : s.exited = none) (hn : 0 < s.num)
    (hres : (s.write_byte_flush offs cm).exited = none) :
    (s.write_byte_flush offs cm).num = 0 := by
  simp only [APB.write_byte_flush, APB.push_write] at hres ⊢
  split_ifs at hres ⊢ <;> simp_all

/-- A flush that does not exit re-targets the expected offset. -/
theorem flush_data_offs (s : APB) (offs : Nat) (cm : String)
    (hex : s.exited = none)
    (hres : (s.write_byte_flush offs cm).exited = none) :
    (s.write_byte_flush offs cm).data_offs = offs := by
  simp only [APB.write_byte_flush, APB.push_write] at hres ⊢
  split_ifs at hres ⊢ <;> simp_all

/-- Python `write_byte` at the expected offset with room left: no flush. -/
theorem write_byte_cont (s : APB) (offs v : Nat) (c : String)
    (hex : s.exited = none) (hd : offs = s.data_offs)
    (h4 : s.num + 1 ≠ 4) :
    s.write_byte offs v c
      = { s with data := s.data ||| ((v &&& 255) <<< (8 * s.num)),
                 num := s.num + 1, data_offs := s.data_offs + 1 } := by
  subst hd
  rw [APB.write_byte]
  simp [hex, h4]

/-- Python `write_byte` at the expected offset completing a word: the same call
flushes the updated accumulator. -/
theorem write_byte_full (s : APB) (offs v : Nat) (c : String)
    (hex : s.exited = none) (hd : offs = s.data_offs)
    (h4 : s.num + 1 = 4) :
    s.write_byte offs v c
      = ({ s with data := s.data ||| ((v &&& 255) <<< (8 * s.num)),
                  num := s.num + 1,
                  data_offs := s.data_offs + 1 } : APB).write_byte_flush
          (offs + 1) c := by
  subst hd
  rw [APB.write_byte]
  simp [hex, h4]

/-- Python `write_byte` at a discontinuous offset equals the pre-flush followed
by `write_byte` on the flushed state (whose expected offset is now the
requested one). -/
theorem write_byte_discont_eq (s : APB) (offs v : Nat) (c : String)
    (hex : s.exited = none) (hd : offs ≠ s.data_offs) :
    s.write_byte offs v c
      = (s.write_byte_flush offs "").write_byte offs v c := by
  by_cases hx1 : (s.write_byte_flush offs "").exited.isSome
  · conv_lhs => rw [APB.write_byte]
    conv_rhs => rw [APB.write_byte]
    simp [hex, hd, hx1]
  · have hex1 := Option.not_isSome_iff_eq_none.mp hx1
    have hoffs1 := flush_data_offs s offs "" hex hex1
    conv_lhs => rw [APB.write_byte]
    conv_rhs => rw [APB.write_byte]
    simp [hex, hd, hex1, hoffs1]

/-- Python `write_byte` keeps the count below 4 whenever it returns a live
state. -/
theorem write_byte_num_lt (s : APB) (offs v : Nat) (c : String)
    (h : s.num < 4)
    (hres : (s.write_byte offs v c).exited = none) :
    (s.write_byte offs v c).num < 4 := by
  by_cases hx : s.exited.isSome
  · have e : s.write_byte offs v c = s := by rw [APB.write_byte, if_pos hx]
    rw [e]
    exact h
  · have hex : s.exited = none := Option.not_isSome_iff_eq_none.mp hx
    by_cases hd : offs = s.data_offs
    · by_cases h4 : s.num + 1 = 4
      · rw [write_byte_full s offs v c hex hd h4] at hres ⊢
        have h0 := flush_num_of_no_exit _ (offs + 1) c (by simpa using hex)
          (by simp) hres
        omega
      · rw [write_byte_cont s offs v c hex hd h4]
        simp
        omega
    · rw [write_byte_discont_eq s offs v c hex hd] at hres ⊢
      by_cases hx1 : (s.write_byte_flush offs "").exited.isSome
      · have e : (s.write_byte_flush offs "").write_byte offs v c
            = s.write_byte_flush offs "" := by
          rw [APB.write_byte, if_pos hx1]
        rw [e] at hres ⊢
        rw [hres] at hx1
        simp at hx1
      · have hex1 := Option.not_isSome_iff_eq_none.mp hx1
        have hd1 : offs = (s.write_byte_flush offs "").data_offs :=
          (flush_data_offs s offs "" hex hex1).symm
        have hnum1 : (s.write_byte_flush offs "").num < 4 := by
          rcases flush_num_cases s offs "" with h0 | h0 | h0
          · omega
          · omega
          · rw [h0] at hex1
            simp at hex1
        by_cases h4 : (s.write_byte_flush offs "").num + 1 = 4
        · rw [write_byte_full _ offs v c hex1 hd1 h4] at hres ⊢
          have h0 := flush_num_of_no_exit _ (offs + 1) c
            (by simpa using hex1) (by simp) hres
          omega
        · rw [write_byte_cont _ offs v c hex1 hd1 h4]
          simp
          omega

/-! ### Claims -/

/-- C2 (counterexample): at construction the overwrite bitmap's length is
NOT `C_GROUP_OFFS * P_NUMGROUPS / 4` — with `C_GROUP_OFFS = 8` and
`P_NUMGROUPS = 2` the list has 16 entries, not 4. -/
theorem init_mem_length_not_div4 :
    ¬ ((APB.init t0 0 false false false).mem.length
        = t0.C_GROUP_OFFS * t0.P_NUMGROUPS / 4) := by
  decide

/-- C2 (amended): at construction the overwrite bitmap is a fixed-size
sequence of booleans, all false, of length `C_GROUP_OFFS * P_NUMGROUPS`
(one slot per byte of the addressable region; only the word-index slots
`addr >> 2` are ever consulted). -/
theorem init_mem_spec (t : Tcnn) (base : Nat) (bm vw nes : Bool) :
    (APB.init t base bm vw nes).mem.length = t.C_GROUP_OFFS * t.P_NUMGROUPS
    ∧ ∀ i : Nat, (APB.init t base bm vw nes).mem.getD i false = false := by
  refine ⟨by simp [APB.init], fun i => ?_⟩
  simp [APB.init, List.getElem?_replicate]
  split <;> rfl

/-- C7: `verify_top` emits exactly the same guard text whether `rv` is
`true` or `false`; the two branches are extensionally equal in
`(addr, val, comment)` (and the sink state). -/
theorem verify_top_rv_irrelevant (apb_base : Nat) (w : Writer)
    (addr val : Nat) (comment : String) :
    verify_top apb_base w addr val comment true
      = verify_top apb_base w addr val comment false := rfl

/-- C9: `verify_block` writes nothing to the output sink, changes no state
and never terminates the process, for any address/value pair. -/
theorem verify_block_noop (w : Writer) (addr val : Nat) (comment : String)
    (rv : Bool) :
    verify_block w addr val comment rv = w := rfl

/-- C5: `write_kern` on kernel bytes `[1..9]` issues exactly four backend
writes at `base, base+4, base+8, base+12` with values
`0x00000001, 0x02030405, 0x06070809, 0x00000000`, all with `no_verify`
set; if `verify_writes` is enabled, exactly the four matching `verify`
calls follow, else nothing more. -/
theorem write_kern_packing (t : Tcnn) (s : APB) (ll ch idx : Nat)
    (hex : s.exited = none) (hch : ch < t.MAX_CHANNELS)
    (hidx : idx < t.MASK_WIDTH) :
    (s.write_kern t ll ch idx [1, 2, 3, 4, 5, 6, 7, 8, 9]).calls
      = s.calls
        ++ [Call.write (kern_addr t ch idx) 0x00000001
              (" // Layer " ++ toString ll ++ ": processor " ++ toString ch
                ++ " kernel #" ++ toString idx) true,
            Call.write (kern_addr t ch idx + 4) 0x02030405 "" true,
            Call.write (kern_addr t ch idx + 8) 0x06070809 "" true,
            Call.write (kern_addr t ch idx + 12) 0x00000000 "" true]
        ++ (if s.verify_writes then
              [Call.verify (kern_addr t ch idx) 0x00000001 "" false,
               Call.verify (kern_addr t ch idx + 4) 0x02030405 "" false,
               Call.verify (kern_addr t ch idx + 8) 0x06070809 "" false,
               Call.verify (kern_addr t ch idx + 12) 0x00000000 "" false]
            else []) := by
  rw [APB.write_kern]
  simp only [hex, Option.isSome_none, Bool.false_eq_true, if_false,
    if_pos (And.intro hch hidx)]
  cases hv : s.verify_writes <;>
    simp [APB.push_write, APB.push_verify, hv, List.append_assoc] <;> decide

/-- C5 (witness): evaluating `write_kern` at the sample configuration with
`verify_writes` enabled. -/
theorem write_kern_packing_witness :
    (APB.init t0 0 false true false).exited = none
    ∧ (2 : Nat) < t0.MAX_CHANNELS
    ∧ (1 : Nat) < t0.MASK_WIDTH
    ∧ ((APB.init t0 0 false true false).write_kern t0 0 2 1
          [1, 2, 3, 4, 5, 6, 7, 8, 9]).calls
      = (APB.init t0 0 false true false).calls
        ++ [Call.write (kern_addr t0 2 1) 0x00000001
              (" // Layer " ++ toString 0 ++ ": processor " ++ toString 2
                ++ " kernel #" ++ toString 1) true,
            Call.write (kern_addr t0 2 1 + 4) 0x02030405 "" true,
            Call.write (kern_addr t0 2 1 + 8) 0x06070809 "" true,
            Call.write (kern_addr t0 2 1 + 12) 0x00000000 "" true]
        ++ (if (APB.init t0 0 false true false).verify_writes then
              [Call.verify (kern_addr t0 2 1) 0x00000001 "" false,
               Call.verify (kern_addr t0 2 1 + 4) 0x02030405 "" false,
               Call.verify (kern_addr t0 2 1 + 8) 0x06070809 "" false,
               Call.verify (kern_addr t0 2 1 + 12) 0x00000000 "" false]
            else []) :=
  ⟨rfl, by decide, by decide,
    write_kern_packing t0 (APB.init t0 0 false true false) 0 2 1 rfl
      (by decide) (by decide)⟩

/-- C1 (counterexample): direct register writes are NOT tracked — two
`write_ctl` calls to the same address (group 0, register 0) produce no
overwrite report, do not halt, both emit, and leave the bitmap slot
clear. -/
theorem direct_write_untracked :
    ((((APB.init t0 0 false false false).write_ctl t0 0 0 5
        (some "")).write_ctl t0 0 0 7 (some "")).reports = [])
    ∧ ((((APB.init t0 0 false false false).write_ctl t0 0 0 5
        (some "")).write_ctl t0 0 0 7 (some "")).exited = none)
    ∧ ((((APB.init t0 0 false false false).write_ctl t0 0 0 5
        (some "")).write_ctl t0 0 0 7 (some "")).calls
        = [Call.write 16 5 "" false, Call.write 16 7 "" false])
    ∧ ((((APB.init t0 0 false false false).write_ctl t0 0 0 5
        (some "")).write_ctl t0 0 0 7 (some "")).mem.getD (16 >>> 2) false
        = false) := by
  decide

/-- C1 (amended): a duplicate word write issued via the byte coalescer
triggers the overwrite-report path exactly once, naming the offending
address; with `no_error_stop` false the process exits with status 1 and
no further write (of this flush or of any later operation) is emitted;
with `no_error_stop` true execution continues, the word is emitted, the
bitmap slot stays set, and the only new signal is that single report.
Direct register/kernel writes bypass the tracker (see the
counterexample). -/
theorem overwrite_flush_report (t : Tcnn) (s : APB) (offs : Nat)
    (cm : String) (ops : List Op)
    (hex : s.exited = none) (hnum : 0 < s.num)
    (hdup : s.mem.getD ((s.data_offs - s.num) >>> 2) false = true) :
    (s.write_byte_flush offs cm).reports
        = s.reports ++ [s.data_offs - s.num]
    ∧ (s.no_error_stop = false →
        (s.write_byte_flush offs cm).exited = some 1
        ∧ (s.write_byte_flush offs cm).calls = s.calls
        ∧ ((s.write_byte_flush offs cm).run t ops).calls = s.calls)
    ∧ (s.no_error_stop = true →
        (s.write_byte_flush offs cm).exited = none
        ∧ (s.write_byte_flush offs cm).calls
            = s.calls
              ++ [Call.write (s.data_offs - s.num) s.data cm false]
        ∧ (s.write_byte_flush offs cm).mem.getD
            ((s.data_offs - s.num) >>> 2) false = true
        ∧ (s.write_byte_flush offs cm).reports.length
            = s.reports.length + 1) := by
  have hlt := getD_true_lt _ _ hdup
  cases hnes : s.no_error_stop with
  | false =>
      rw [flush_dup_stop s offs cm hex hnum hnes hdup]
      refine ⟨rfl, fun _ => ⟨rfl, rfl, ?_⟩, fun hcontra => by simp at hcontra⟩
      rw [run_exited]
      rfl
  | true =>
      rw [flush_dup_continue s offs cm hex hnum hnes hdup]
      refine ⟨rfl, fun hcontra => by simp at hcontra,
        fun _ => ⟨hex, rfl, ?_, by simp⟩⟩
      rw [List.getD_eq_getElem?_getD, List.getElem?_set_self hlt]
      rfl

/-- C1 (witness): evaluating the duplicate-flush theorem on a concrete
pending-duplicate state with `no_error_stop` false. -/
theorem overwrite_flush_report_witness :
    s_dup.exited = none ∧ 0 < s_dup.num
    ∧ s_dup.mem.getD ((s_dup.data_offs - s_dup.num) >>> 2) false = true
    ∧ ((s_dup.write_byte_flush 9 "").reports
          = s_dup.reports ++ [s_dup.data_offs - s_dup.num]
       ∧ (s_dup.no_error_stop = false →
            (s_dup.write_byte_flush 9 "").exited = some 1
            ∧ (s_dup.write_byte_flush 9 "").calls = s_dup.calls
            ∧ (((s_dup.write_byte_flush 9 "").run t0
                  [Op.wctl 0 0 5 none]).calls = s_dup.calls))
       ∧ (s_dup.no_error_stop = true →
            (s_dup.write_byte_flush 9 "").exited = none
            ∧ (s_dup.write_byte_flush 9 "").calls
                = s_dup.calls
                  ++ [Call.write (s_dup.data_offs - s_dup.num) s_dup.data
                        "" false]
            ∧ (s_dup.write_byte_flush 9 "").mem.getD
                ((s_dup.data_offs - s_dup.num) >>> 2) false = true
            ∧ (s_dup.write_byte_flush 9 "").reports.length
                = s_dup.reports.length + 1)) :=
  ⟨rfl, by decide, by decide,
    overwrite_flush_report t0 s_dup 9 "" [Op.wctl 0 0 5 none] rfl
      (by decide) (by decide)⟩

/-- C6 (counterexample): a flush of an accumulation that began at the
non-aligned offset 1 emits the word at address 1, which is not
word-aligned. -/
theorem flush_unaligned :
    ((((APB.init t0 0 false false false).write_byte 1 171
        "").write_byte_flush 9 "").calls = [Call.write 1 171 "" false])
    ∧ ¬ (1 % 4 = 0) := by
  decide

/-- C6 (amended): for every flush in which the accumulator holds at least
one collected byte, the emitted word's address equals
`current_offset - count`, the overwrite tracker is checked and its slot
`address >> 2` marked, and count and accumulator are reset to zero — but
the address is word-aligned only when the accumulation began at a
word-aligned offset, which the engine does not enforce. -/
theorem flush_nonempty_spec (s : APB) (offs : Nat) (cm : String)
    (hex : s.exited = none) (hnum : 0 < s.num)
    (hmem : s.mem.getD ((s.data_offs - s.num) >>> 2) false = false)
    (hlt : (s.data_offs - s.num) >>> 2 < s.mem.length) :
    (s.write_byte_flush offs cm).calls
        = s.calls ++ [Call.write (s.data_offs - s.num) s.data cm false]
    ∧ (s.write_byte_flush offs cm).mem.getD
        ((s.data_offs - s.num) >>> 2) false = true
    ∧ (s.write_byte_flush offs cm).num = 0
    ∧ (s.write_byte_flush offs cm).data = 0 := by
  rw [flush_fresh s offs cm hex hnum hmem]
  refine ⟨rfl, ?_, rfl, rfl⟩
  rw [List.getD_eq_getElem?_getD, List.getElem?_set_self hlt]
  rfl

/-- C6 (witness): evaluating the flush theorem on a concrete one-byte
accumulator state. -/
theorem flush_nonempty_spec_witness :
    s_pend.exited = none
    ∧ 0 < s_pend.num
    ∧ s_pend.mem.getD ((s_pend.data_offs - s_pend.num) >>> 2) false = false
    ∧ (s_pend.data_offs - s_pend.num) >>> 2 < s_pend.mem.length
    ∧ ((s_pend.write_byte_flush 9 "").calls
        = s_pend.calls
          ++ [Call.write (s_pend.data_offs - s_pend.num) s_pend.data ""
                false]
       ∧ (s_pend.write_byte_flush 9 "").mem.getD
           ((s_pend.data_offs - s_pend.num) >>> 2) false = true
       ∧ (s_pend.write_byte_flush 9 "").num = 0
       ∧ (s_pend.write_byte_flush 9 "").data = 0) :=
  ⟨rfl, by decide, by decide, by decide,
    flush_nonempty_spec s_pend 9 "" rfl (by decide) (by decide) (by decide)⟩

/-- C3: four consecutive `write_byte` calls at offsets `o..o+3` (starting
from an empty accumulator expecting `o`, over a fresh word slot) cause
exactly one backend write, at address `o`, of the little-endian word
`b0 ||| b1<<<8 ||| b2<<<16 ||| b3<<<24`. -/
theorem write_byte_word_packing (ab : Nat) (bm vw nes : Bool) (o : Nat)
    (mem : List Bool) (cls : List Call) (rps : List Nat)
    (b0 b1 b2 b3 : Nat) (ca cb cc cd : String)
    (halign : o % 4 = 0) (hmem : mem.getD (o >>> 2) false = false)
    (h0 : b0 < 256) (h1 : b1 < 256) (h2 : b2 < 256) (h3 : b3 < 256) :
    (((((APB.mk ab bm vw nes 0 0 o mem cls rps none).write_byte o b0
          ca).write_byte (o + 1) b1 cb).write_byte (o + 2) b2
          cc).write_byte (o + 3) b3 cd).calls
      = cls ++ [Call.write o
          (((b0 ||| (b1 <<< 8)) ||| (b2 <<< 16)) ||| (b3 <<< 24)) cd
          false] := by
  rw [write_byte_matching _ _ _ _ _ _ _ _ _ _ _ _ (by norm_num)]
  rw [write_byte_matching _ _ _ _ _ _ _ _ _ _ _ _ (by norm_num)]
  rw [show o + 1 + 1 = o + 2 from rfl]
  rw [write_byte_matching _ _ _ _ _ _ _ _ _ _ _ _ (by norm_num)]
  rw [show o + 2 + 1 = o + 3 from rfl]
  rw [show (0 : Nat) + 1 + 1 + 1 = 3 from rfl]
  rw [write_byte_fourth]
  · rw [show o + 3 + 1 - 4 = o from rfl]
    simp [and_255_eq b0 h0, and_255_eq b1 h1, and_255_eq b2 h2,
      and_255_eq b3 h3]
  · rw [show o + 3 + 1 - 4 = o from rfl]
    exact hmem

/-- C3 (witness): packing bytes 17, 34, 51, 68 at offsets 0..3. -/
theorem write_byte_word_packing_witness :
    (0 : Nat) % 4 = 0
    ∧ (List.replicate 4 false).getD (0 >>> 2) false = false
    ∧ (17 : Nat) < 256 ∧ (34 : Nat) < 256 ∧ (51 : Nat) < 256
    ∧ (68 : Nat) < 256
    ∧ (((((APB.mk 0 false false false 0 0 0 (List.replicate 4 false) [] []
            none).write_byte 0 17 "a").write_byte 1 34 "b").write_byte 2 51
            "c").write_byte 3 68 "d").calls
        = [] ++ [Call.write 0
            (((17 ||| (34 <<< 8)) ||| (51 <<< 16)) ||| (68 <<< 24)) "d"
            false] :=
  ⟨rfl, by decide, by decide, by decide, by decide, by decide,
    write_byte_word_packing 0 false false false 0 (List.replicate 4 false)
      [] [] 17 34 51 68 "a" "b" "c" "d" rfl (by decide) (by decide)
      (by decide) (by decide) (by decide)⟩

/-- C4: a byte written at offset `o` (empty accumulator expecting `o`,
fresh word slot) followed by a byte at offset `o+5` first flushes the
partial word at address `o` — value `b` in the low byte, the three
uncollected byte positions zero — and only then starts accumulating `b'`
at offset `o+5`. -/
theorem write_byte_discontinuity (ab : Nat) (bm vw nes : Bool) (o : Nat)
    (mem : List Bool) (cls : List Call) (rps : List Nat) (b bq : Nat)
    (ca cb : String)
    (hmem : mem.getD (o >>> 2) false = false) (hb : b < 256)
    (hbq : bq < 256) :
    ((APB.mk ab bm vw nes 0 0 o mem cls rps none).write_byte o b
        ca).write_byte (o + 5) bq cb
      = APB.mk ab bm vw nes bq 1 (o + 5 + 1) (mem.set (o >>> 2) true)
          (cls ++ [Call.write o b "" false]) rps none := by
  rw [write_byte_matching _ _ _ _ _ _ _ _ _ _ _ _ (by norm_num)]
  rw [write_byte_discont_fresh]
  · rw [show o + 1 - 1 = o from rfl]
    simp [and_255_eq b hb, and_255_eq bq hbq]
  · omega
  · norm_num
  · rw [show o + 1 - 1 = o from rfl]
    exact hmem

/-- C4 (witness): byte 9 at offset 0 then byte 250 at offset 5. -/
theorem write_byte_discontinuity_witness :
    (List.replicate 4 false).getD (0 >>> 2) false = false
    ∧ (9 : Nat) < 256 ∧ (250 : Nat) < 256
    ∧ ((APB.mk 0 false false false 0 0 0 (List.replicate 4 false) [] []
          none).write_byte 0 9 "x").write_byte 5 250 "y"
      = APB.mk 0 false false false 250 1 6
          ((List.replicate 4 false).set 0 true)
          ([] ++ [Call.write 0 9 "" false]) [] none :=
  ⟨by decide, by decide, by decide,
    write_byte_discontinuity 0 false false false 0 (List.replicate 4 false)
      [] [] 9 250 "x" "y" (by decide) (by decide) (by decide)⟩

/-- C8: the byte-accumulator count stays in `[0, 4)` across every public
operation of a live engine: whenever `count` reaches 4 inside
`write_byte`, the word is flushed and the count reset in the same call. -/
theorem byte_count_invariant (t : Tcnn) (s : APB) (op : Op)
    (h : s.num < 4) (hres : (s.step t op).exited = none) :
    (s.step t op).num < 4 := by
  cases op with
  | wctl g r v c =>
      simp only [APB.step, write_ctl_num]
      exact h
  | wlreg g l r v c =>
      simp only [APB.step, write_lreg_num]
      exact h
  | wbias g o b =>
      simp only [APB.step, write_bias_num]
      exact h
  | wtram g p o d c =>
      simp only [APB.step, write_tram_num]
      exact h
  | wkern ll ch idx k =>
      simp only [APB.step, write_kern_num]
      exact h
  | wbyte offs v c =>
      simp only [APB.step] at hres ⊢
      exact write_byte_num_lt s offs v c h hres
  | wflush offs c =>
      simp only [APB.step] at hres ⊢
      rcases flush_num_cases s offs c with h0 | h0 | h0
      · omega
      · omega
      · rw [h0] at hres
        simp at hres

/-- C8 (witness): one `write_byte` step from a freshly constructed
engine. -/
theorem byte_count_invariant_witness :
    (APB.init t0 0 false false false).num < 4
    ∧ ((APB.init t0 0 false false false).step t0
        (Op.wbyte 0 7 "")).exited = none
    ∧ ((APB.init t0 0 false false false).step t0
        (Op.wbyte 0 7 "")).num < 4 :=
  ⟨by decide, by decide,
    byte_count_invariant t0 (APB.init t0 0 false false false)
      (Op.wbyte 0 7 "") (by decide) (by decide)⟩

/-- C10: `get_mem` is the engine's live overwrite bitmap, not a copy: it
returns the `mem` field itself, and immediately after a flush emits a word
at address `w`, slot `w >> 2` of the returned list reads `true` while every
other slot is unchanged (so never-written slots stay `false`). -/
theorem get_mem_live (s : APB) (offs : Nat) (cm : String)
    (hex : s.exited = none) (hnum : 0 < s.num)
    (hmem : s.mem.getD ((s.data_offs - s.num) >>> 2) false = false)
    (hlt : (s.data_offs - s.num) >>> 2 < s.mem.length) :
    (s.write_byte_flush offs cm).get_mem = (s.write_byte_flush offs cm).mem
    ∧ (s.write_byte_flush offs cm).get_mem.getD
        ((s.data_offs - s.num) >>> 2) false = true
    ∧ ∀ i : Nat, i ≠ (s.data_offs - s.num) >>> 2 →
        (s.write_byte_flush offs cm).get_mem.getD i false
          = s.get_mem.getD i false := by
  rw [flush_fresh s offs cm hex hnum hmem]
  refine ⟨rfl, ?_, fun i hi => ?_⟩
  · simp only [APB.get_mem]
    rw [List.getD_eq_getElem?_getD, List.getElem?_set_self hlt]
    rfl
  · simp only [APB.get_mem]
    rw [List.getD_eq_getElem?_getD, List.getD_eq_getElem?_getD,
        List.getElem?_set_ne (Ne.symm hi)]

/-- C10 (witness): evaluating the live-bitmap theorem on the concrete
one-pending-byte state (flushed word address 4, slot 1; untouched slot 3
stays false). -/
theorem get_mem_live_witness :
    s_pend.exited = none
    ∧ 0 < s_pend.num
    ∧ s_pend.mem.getD ((s_pend.data_offs - s_pend.num) >>> 2) false = false
    ∧ (s_pend.data_offs - s_pend.num) >>> 2 < s_pend.mem.length
    ∧ ((s_pend.write_byte_flush 9 "").get_mem
        = (s_pend.write_byte_flush 9 "").mem
       ∧ (s_pend.write_byte_flush 9 "").get_mem.getD
           ((s_pend.data_offs - s_pend.num) >>> 2) false = true
       ∧ ((3 : Nat) ≠ (s_pend.data_offs - s_pend.num) >>> 2 →
           (s_pend.write_byte_flush 9 "").get_mem.getD 3 false
             = s_pend.get_mem.getD 3 false)) :=
  ⟨rfl, by decide, by decide, by decide,
    (get_mem_live s_pend 9 "" rfl (by decide) (by decide) (by decide)).1,
    (get_mem_live s_pend 9 "" rfl (by decide) (by decide) (by decide)).2.1,
    (get_mem_live s_pend 9 "" rfl (by decide) (by decide) (by decide)).2.2 3⟩

end ApbAccess
